import Mathlib

/-!
Verification of camlistore's blob upload handler
(`pkg/blobserver/handlers/upload.go`) and JSON sign handler
(`pkg/jsonsign/signhandler`), as a shallow embedding in Lean.

Machinery that the handlers consume from collaborating packages that are
outside the verified sources (the storage backend, `pkg/blob` parsing,
`pkg/schema` builders, the PGP sign/verify primitive, `mime`/`httputil`
helpers) is represented either by explicit function parameters in an
environment record or by definitions whose doc comment starts with
`Modelled from the spec:`.
-/

namespace Camli

/-- A blob reference, represented by its string form, e.g. "sha1-xxxx".
`blob.Parse` (from `pkg/blob`, outside the verified sources) is an
environment parameter wherever it is consumed. -/
abbrev Ref := String

/-- Modelled from the spec: `blob.Ref.Valid` — the zero (empty) ref is
invalid, any other ref is valid (`pkg/blob` is outside the verified
sources). -/
def refValid (r : Ref) : Bool := r ≠ ""

/-- `blob.SizedRef`: a blob reference together with its byte size. -/
structure SizedRef where
  ref : Ref
  size : Nat
deriving DecidableEq

/-- One decoded MIME part of a multipart request body: the raw
`Content-Disposition` header value and the part's body bytes. -/
structure MimePart where
  contentDisposition : String
  body : String
deriving DecidableEq

/-- `pat` occurs as a contiguous infix of `s` (character lists). -/
def infixOf (pat : List Char) : List Char → Bool
  | [] => pat.isEmpty
  | c :: t => pat.isPrefixOf (c :: t) || infixOf pat t

/-- `strings.Contains s pat`. -/
def strContains (s pat : String) : Bool := infixOf pat.data s.data

/-- Go's `%q` verb applied to a string: the string surrounded by double
quotes (escaping of exotic characters is not modelled; the claims under
study never depend on it). -/
def fmtQ (s : String) : String := "\"" ++ s ++ "\""

/-- Go's `len` on a string: its UTF-8 byte count. -/
def goLen (s : String) : Nat := s.utf8ByteSize

/-- The request-scoped mutable state of `handleMultiPartUpload`'s
ingestion loop: `receivedBlobs`, the recorded error messages (in order of
the `addError` calls; the code's `errText` string is `errTextOf errors`,
see below), and the state of the storage collaborator. -/
structure LoopState (σ : Type) where
  received : List SizedRef
  errors : List String
  store : σ

/-- One `addError` call: record the message (the code appends it to
`errText`, separated by a newline when `errText` is nonempty). -/
def LoopState.addErr (st : LoopState σ) (msg : String) : LoopState σ :=
  { st with errors := st.errors ++ [msg] }

/-- The code's `errText` accumulator: starting from the empty string,
each recorded message `s` is appended by
`if errText == "" then s else errText + "\n" + s`. -/
def addErrText (acc s : String) : String :=
  if acc = "" then s else acc ++ "\n" ++ s

/-- The `errText` string that results from recording the given messages
in order. -/
def errTextOf (l : List String) : String := l.foldl addErrText ""

/-- The collaborators `handleMultiPartUpload` consumes, all outside the
verified sources: `mime.ParseMediaType` (returns media type and
parameters, or an error), `blob.Parse` (`(ref, ok)`), the storage
collaborator's `ReceiveBlob` over abstract storage states `σ`, and the
`vivify` operation as invoked per received blob (verified separately
below; abstracted here to its observable outcome). -/
structure UploadEnv (σ : Type) where
  parseMediaType : String → Option (String × List (String × String))
  parseRef : String → Option Ref
  receive : σ → Ref → String → Except String (SizedRef × σ)
  vivifyBlob : σ → SizedRef → Except String σ

/-- `params["name"]` on the parameter map returned by
`mime.ParseMediaType` (a missing key yields Go's zero string). -/
def partName (params : List (String × String)) : String :=
  (List.lookup "name" params).getD ""

/-- The `for { mimePart, err := multipart.NextPart() ... }` ingestion
loop of `handleMultiPartUpload`, over the decoded parts followed by the
terminal `NextPart` outcome (`none` = `io.EOF`, `some e` = a read
error). Mirrors the source line by line: a part whose disposition fails
to parse or is not "form-data" breaks the loop, a part whose name does
not parse as a blob ref is skipped (`continue`), a failing
`ReceiveBlob` breaks the loop, and a successful receive appends to
`receivedBlobs`. (`oldAppEngineHappySpec` is `false` in the source, so
the Content-Type/filename checks are dead code and not modelled.) -/
def processParts (env : UploadEnv σ) :
    LoopState σ → List MimePart → Option String → LoopState σ
  | st, [], none => st
  | st, [], some e => st.addErr ("Error reading multipart section: " ++ e)
  | st, p :: rest, serr =>
    match env.parseMediaType p.contentDisposition with
    | none => st.addErr "invalid Content-Disposition"
    | some (disp, params) =>
      if disp = "form-data" then
        match env.parseRef (partName params) with
        | none =>
          processParts env
            (st.addErr ("Ignoring form key " ++ fmtQ (partName params))) rest serr
        | some ref =>
          match env.receive st.store ref p.body with
          | .error e =>
            st.addErr ("Error receiving blob " ++ ref ++ ": " ++ e ++ "\n")
          | .ok (got, s') =>
            processParts env
              { st with received := st.received ++ [got], store := s' } rest serr
      else
        st.addErr ("Expected Content-Disposition of \"form-data\"; got " ++ fmtQ disp)

/-- The configuration-dependent outcomes that drive
`commonUploadResponse`: the configer interface value is nil, its
`Config()` is nil, `httputil.BaseURL` fails with the given message, or
`httputil.BaseURL` succeeds with the given base URL (`httputil` is
outside the verified sources, so its outcome is part of the state). -/
inductive ConfigerState where
  | nilConfiger
  | nilConfig
  | badBaseURL (e : String)
  | good (baseURL : String)
deriving DecidableEq

/-- Modelled from the spec: `blobserver.MaxBlobSize`, the maximum blob
size constant echoed in upload responses (`pkg/blobserver` is outside
the verified sources; no claim depends on its value). -/
def MaxBlobSize : Nat := 16 * 1024 * 1024

/-- The fields `commonUploadResponse` puts into the response map before
the handler adds `received` and `errorText`. -/
structure RetBase where
  maxUploadSize : Nat
  uploadUrlExpirationSeconds : Nat
  uploadUrl : Option String
deriving DecidableEq

/-- `commonUploadResponse`: returns the response map (`none` models the
Go nil map) and the error, mirroring the source's three error branches
and the success branch. -/
def commonUploadResponse : ConfigerState → Option RetBase × Option String
  | .nilConfiger => (none, some "Cannot build uploadUrl: configer is nil")
  | .nilConfig => (none, some "Cannot build uploadUrl: configer.Config is nil")
  | .badBaseURL e =>
    (some ⟨MaxBlobSize, 86400, none⟩, some ("Cannot build uploadUrl: " ++ e))
  | .good baseURL =>
    (some ⟨MaxBlobSize, 86400, some (baseURL ++ "/camli/upload")⟩, none)

/-- The `X-Camlistore-Vivify` post-ingestion loop: for each received
blob in order, run `vivify`; a failure records an error message, a
success adds one `X-Camlistore-Vivified` header with the blob's ref.
Returns the final storage state, the recorded messages, and the added
headers, each in occurrence order. -/
def runVivify (f : σ → SizedRef → Except String σ) :
    σ → List SizedRef → σ × List String × List String
  | s, [] => (s, [], [])
  | s, b :: bs =>
    match f s b with
    | .error e =>
      let r := runVivify f s bs
      (r.1, ("Error vivifying blob " ++ b.ref ++ ": " ++ e ++ "\n") :: r.2.1, r.2.2)
    | .ok s1 =>
      let r := runVivify f s1 bs
      (r.1, r.2.1, b.ref :: r.2.2)

/-- The JSON response body of a completed upload request. -/
structure UploadResponse where
  base : RetBase
  received : List (String × Nat)
  errorText : Option String
deriving DecidableEq

/-- One write to the HTTP connection: `httputil.BadRequestError`
(status 400), `httputil.ServeError` (status 500), or
`httputil.ReturnJSON` (status 200). -/
inductive HttpWrite where
  | badRequest (msg : String)
  | serverError (msg : String)
  | json (resp : UploadResponse)
deriving DecidableEq

/-- The parts of an upload HTTP request the handler inspects: method,
URL path, the outcome of `req.MultipartReader()` (an error, or the
decoded parts plus the terminal `NextPart` outcome), and the
`X-Camlistore-Vivify` header value. -/
structure UploadRequest where
  method : String
  urlPath : String
  multipart : Except String (List MimePart × Option String)
  vivifyHeader : String

/-- Everything observable about one run of `handleMultiPartUpload`: the
sequence of writes to the connection, the `X-Camlistore-Vivified`
headers added, whether the run faulted on the `ret["received"]`
assignment to a nil map, and the final storage state. -/
structure UploadOutcome (σ : Type) where
  writes : List HttpWrite
  vivifiedHeaders : List String
  fault : Bool
  store : σ

/-- `handleMultiPartUpload`, mirroring the source: reject non-POST or
wrong-path requests and requests without a multipart body; run the
ingestion loop; call `commonUploadResponse` and, on error, write a 500
but fall through; assign `received` into the map (a fault when the map
is nil); optionally vivify each received blob; attach `errorText` when
nonempty; write the JSON response. -/
def handleMultiPartUpload (env : UploadEnv σ) (cfg : ConfigerState)
    (req : UploadRequest) (s0 : σ) : UploadOutcome σ :=
  if req.method = "POST" ∧ strContains req.urlPath "/camli/upload" = true then
    match req.multipart with
    | .error e =>
      ⟨[.badRequest ("Expected multipart/form-data POST request; " ++ e)], [], false, s0⟩
    | .ok (parts, serr) =>
      let st := processParts env ⟨[], [], s0⟩ parts serr
      let cr := commonUploadResponse cfg
      let writes0 : List HttpWrite :=
        match cr.2 with
        | some e => [.serverError e]
        | none => []
      match cr.1 with
      | none => ⟨writes0, [], true, st.store⟩
      | some retBase =>
        let received := st.received.map (fun g => (g.ref, g.size))
        let v :=
          if req.vivifyHeader = "1" then runVivify env.vivifyBlob st.store st.received
          else (st.store, [], [])
        let allErrors := st.errors ++ v.2.1
        let errText := errTextOf allErrors
        let resp : UploadResponse :=
          ⟨retBase, received, if errText = "" then none else some errText⟩
        ⟨writes0 ++ [.json resp], v.2.2, false, v.1⟩
  else ⟨[.badRequest "Inconfigured handler."], [], false, s0⟩

/-- A claim date (`time.Time` as produced by `time.Parse(time.RFC3339, _)`);
only its identity matters to the claims under study. -/
abbrev Date := Nat

/-- What kind of schema object a `schema.Builder` under construction is:
a planned permanode derived from a seed digest, or a set-attribute
claim. -/
inductive BuilderKind where
  | plannedPermanode (seedDigest : String)
  | setAttributeClaim (permanode : Ref) (attr : String) (value : String)
deriving DecidableEq

/-- Modelled from the spec: `schema.Builder` (`pkg/schema` is outside
the verified sources) — an unsigned schema object under construction,
carrying its kind, its signer and its claim date. -/
structure Builder where
  kind : BuilderKind
  signer : Option Ref
  claimDate : Option Date
deriving DecidableEq

/-- Modelled from the spec: `schema.NewHashPlannedPermanode` — a planned
permanode derived deterministically from a seed digest, with no signer
or claim date yet. -/
def NewHashPlannedPermanode (seedDigest : String) : Builder :=
  ⟨.plannedPermanode seedDigest, none, none⟩

/-- Modelled from the spec: `schema.NewSetAttributeClaim` — a claim
`(permanodeRef, attribute, value)` with no signer or claim date yet. -/
def NewSetAttributeClaim (permanode : Ref) (attr value : String) : Builder :=
  ⟨.setAttributeClaim permanode attr value, none, none⟩

/-- `Builder.SetSigner`. -/
def Builder.SetSigner (bb : Builder) (r : Ref) : Builder := { bb with signer := some r }

/-- `Builder.SetClaimDate`. -/
def Builder.SetClaimDate (bb : Builder) (d : Date) : Builder := { bb with claimDate := some d }

/-- `jsonsign.SignRequest` as built by the sign handler: the unsigned
JSON, the server-mode flag, the secret keyring path, and the signature
time (`none` models the zero `time.Time`, i.e. "use the current
time"). The `Fetcher` field is not modelled: the sign primitive is a
black box. -/
structure SignRequest where
  unsignedJSON : String
  serverMode : Bool
  secretKeyringPath : String
  signatureTime : Option Date
deriving DecidableEq

/-- `signhandler.Handler`: the fields the claims under study inspect —
the optional secret keyring override, the public key's blob ref, the
serve suffix derived from it, and the primary key id string. -/
structure SigHandler where
  secretRing : String
  pubKeyBlobRef : Ref
  pubKeyBlobRefServeSuffix : String
  publicKeyId : String
deriving DecidableEq

/-- `signhandler.Handler.Sign`: set the signer to the handler's public
key blob ref, serialize the builder to its unsigned JSON, build a
server-mode `SignRequest` whose signature time is the builder's claim
date when it has one (a missing claim date is tolerated and leaves the
signature time unset), and delegate to the sign primitive. Returns, on
success, the signed text together with the builder as signed and the
`SignRequest` delegated to, so that properties of the signature time can
be stated. `signPrim` (`jsonsign.SignRequest.Sign`) and `builderJSON`
(`schema.Builder.JSON`) are collaborators outside the verified
sources. -/
def SigHandler.Sign (signPrim : SignRequest → Except String String)
    (builderJSON : Builder → Except String String)
    (h : SigHandler) (bb : Builder) : Except String (String × Builder × SignRequest) :=
  let bb2 := bb.SetSigner h.pubKeyBlobRef
  match builderJSON bb2 with
  | .error e => .error e
  | .ok unsigned =>
    let sreq : SignRequest := ⟨unsigned, true, h.secretRing, bb2.claimDate⟩
    match signPrim sreq with
    | .error e => .error e
    | .ok signed => .ok (signed, bb2, sreq)

/-- The discovery document returned by
`signhandler.Handler.DiscoveryMap`: the two optional fields are present
exactly when the handler's public key blob ref is valid. -/
structure DiscoMap where
  publicKeyId : String
  signHandler : String
  verifyHandler : String
  publicKeyBlobRef : Option String
  publicKey : Option String
deriving DecidableEq

/-- `signhandler.Handler.DiscoveryMap`. -/
def SigHandler.DiscoveryMap (h : SigHandler) (base : String) : DiscoMap :=
  ⟨h.publicKeyId,
   base ++ "camli/sig/sign",
   base ++ "camli/sig/verify",
   if refValid h.pubKeyBlobRef then some h.pubKeyBlobRef else none,
   if refValid h.pubKeyBlobRef then some (base ++ h.pubKeyBlobRefServeSuffix) else none⟩

/-- The outcome of `jsonsign.NewVerificationRequest(...).Verify()`
(the verify primitive is a black box outside the verified sources):
either a valid signature with the signer's key id and the verified
payload, or an invalid one with an error message. -/
inductive VerifyOutcome where
  | valid (signerKeyId : String) (payload : String)
  | invalid (errMsg : String)
deriving DecidableEq

/-- The JSON body `handleVerify` returns. -/
structure VerifyResponseBody where
  signatureValid : Nat
  signerKeyId : Option String
  verifiedData : Option String
  errorMessage : Option String
deriving DecidableEq

/-- One HTTP response as written by the sign/verify endpoints:
`http.Error` with a status code, a 200 JSON body, or a 200 raw text
body. -/
inductive HttpResult where
  | clientError (code : Nat) (msg : String)
  | okJSON (body : VerifyResponseBody)
  | okText (body : String)
deriving DecidableEq

/-- `signhandler.Handler.handleVerify`, applied to the request's
`sjson` form value (Go's `FormValue` yields `""` both for a missing and
for an empty field). -/
def handleVerify (verify : String → VerifyOutcome) (sjson : String) : HttpResult :=
  if sjson = "" then .clientError 400 "missing \"sjson\" parameter"
  else
    match verify sjson with
    | .valid kid payload => .okJSON ⟨1, some kid, some payload, none⟩
    | .invalid e => .okJSON ⟨0, none, none, some e⟩

/-- `signhandler.kMaxJSONLength`. -/
def kMaxJSONLength : Nat := 1024 * 1024

/-- `signhandler.Handler.handleSign`, applied to the request's `json`
form value. The returned `Bool` records whether `sreq.Sign()` was
invoked (i.e. whether any canonicalization, parsing or cryptographic
work was attempted). -/
def handleSign (h : SigHandler) (signPrim : SignRequest → Except String String)
    (jsonStr : String) : HttpResult × Bool :=
  if jsonStr = "" then (.clientError 400 "missing \"json\" parameter", false)
  else if kMaxJSONLength < goLen jsonStr then
    (.clientError 400 "parameter \"json\" too large", false)
  else
    match signPrim ⟨jsonStr, true, h.secretRing, none⟩ with
    | .error e => (.clientError 400 e, true)
    | .ok signed => (.okText signed, true)

/-- Modelled from the spec: the external Storage Collaborator's durable
state, a map from blob refs to their contents. -/
structure Store where
  blobs : List (Ref × String)
deriving DecidableEq

/-- Modelled from the spec: `blobserver.StatBlob` against the Storage
Collaborator — an existence check that succeeds exactly when the blob
is present at the destination. -/
def Store.statBlob (s : Store) (r : Ref) : Except String SizedRef :=
  match List.lookup r s.blobs with
  | some c => .ok ⟨r, goLen c⟩
  | none => .error "blob not found"

/-- Modelled from the spec: the Storage Collaborator's
`Receive(ref, data)` — stores the blob durably and returns its ref and
size. -/
def Store.receiveBlob (s : Store) (r : Ref) (content : String) : SizedRef × Store :=
  (⟨r, goLen content⟩, ⟨(r, content) :: s.blobs⟩)

/-- `signhandler.Handler.uploadPublicKey`: `Stat` first and return with
no write when the blob already exists; otherwise write it. Returns the
resulting store and the number of writes performed (0 or 1); the Go
error result is always nil against the modelled collaborator, whose
receive is total. -/
def uploadPublicKey (pubKeyBlobRef : Ref) (key : String) (sto : Store) : Store × Nat :=
  match sto.statBlob pubKeyBlobRef with
  | .ok _ => (sto, 0)
  | .error _ => ((sto.receiveBlob pubKeyBlobRef key).2, 1)

/-- `n` successive invocations of `uploadPublicKey` against the same
destination (e.g. across `n` startups); returns the final store and the
total number of writes performed. -/
def uploadPublicKeyIter (r : Ref) (key : String) : Nat → Store → Store × Nat
  | 0, s => (s, 0)
  | n + 1, s =>
    let u := uploadPublicKey r key s
    let rest := uploadPublicKeyIter r key n u.1
    (rest.1, u.2 + rest.2)

/-- The `schema.FileReader` for the file blob being vivified, reduced to
what `vivify` observes of it: the declared size (`fr.Size()`), the
outcome of `io.Copy(h, fr)` (bytes read, or a read error), the file
schema's `UnixMtime` and `FileName` strings, and the content digest the
sha1 hasher holds after the copy. `pkg/schema` is outside the verified
sources. -/
structure FileReader where
  size : Int
  copyN : Int
  copyErr : Option String
  unixMtime : String
  fileName : String
  contentHash : String
deriving DecidableEq

/-- The outcome of `vivify`'s handler-registry lookup chain
(`blobReceiver.Config()`, `config.HandlerFinder`,
`hf.FindHandlerByType("jsonsign")`, the `*signhandler.Handler` type
assertion), each failure point mirrored by one constructor. -/
inductive HandlerLookup where
  | nilConfig
  | nilHandlerFinder
  | findFailed
  | notSignHandler
  | found (root : String) (sh : SigHandler)

/-- The collaborators `vivify` consumes (all outside the verified
sources): the `StreamingFetcher` capability check, the
`schema.NewFileReader` outcome, the handler-registry lookup, RFC 3339
timestamp parsing, schema JSON serialization, the sign primitive, the
sha1-of-string digest, and the storage collaborator's receive over
abstract states `σ`. -/
structure VivifyEnv (σ : Type) where
  isStreamingFetcher : Bool
  newFileReader : Except String FileReader
  handlerLookup : HandlerLookup
  parseRFC3339 : String → Option Date
  builderJSON : Builder → Except String String
  signPrim : SignRequest → Except String String
  sha1FromString : String → Ref
  receive : σ → Ref → String → Except String (SizedRef × σ)

/-- Everything observable about one run of `vivify`: its error result,
the final storage state (receives performed before a failure persist),
and the successful `Handler.Sign` calls in order — each as the builder
that was signed and the `SignRequest` the sign handler delegated to. -/
structure VivifyResult (σ : Type) where
  result : Except String Unit
  store : σ
  signCalls : List (Builder × SignRequest)

/-- `vivify`, mirroring the source step by step: capability check, file
reader construction, full read of the reconstructed content, byte-count
check against the declared size, handler-registry lookup, discovery-map
query for the public key blob ref, modtime parsing, then building,
signing and uploading the planned permanode and the camliContent claim,
both stamped with the single parsed claim date. -/
def vivify (env : VivifyEnv σ) (fileblob : SizedRef) (s0 : σ) : VivifyResult σ :=
  if ¬ env.isStreamingFetcher then
    ⟨.error "BlobReceiver is not a StreamingFetcher", s0, []⟩
  else
    match env.newFileReader with
    | .error e =>
      ⟨.error ("Filereader error for blobref " ++ fileblob.ref ++ ": " ++ e), s0, []⟩
    | .ok fr =>
      match fr.copyErr with
      | some e =>
        ⟨.error ("Could not read all file of blobref " ++ fileblob.ref ++ ": " ++ e), s0, []⟩
      | none =>
        if fr.copyN ≠ fr.size then
          ⟨.error ("Could not read all file of blobref " ++ fileblob.ref ++
            ". Wanted " ++ toString fr.size ++ ", got " ++ toString fr.copyN), s0, []⟩
        else
          match env.handlerLookup with
          | .nilConfig => ⟨.error "blobReceiver has no config", s0, []⟩
          | .nilHandlerFinder => ⟨.error "blobReceiver config has no HandlerFinder", s0, []⟩
          | .findFailed => ⟨.error "jsonsign handler not found", s0, []⟩
          | .notSignHandler => ⟨.error "handler is not a JSON signhandler", s0, []⟩
          | .found root sh =>
            match (sh.DiscoveryMap root).publicKeyBlobRef with
            | none => ⟨.error "Discovery: json decoding error: <nil>", s0, []⟩
            | some publicKeyBlobRef =>
              match env.parseRFC3339 fr.unixMtime with
              | none => ⟨.error ("While parsing modtime for file " ++ fr.fileName), s0, []⟩
              | some claimDate =>
                let permanodeBB :=
                  ((NewHashPlannedPermanode fr.contentHash).SetSigner publicKeyBlobRef).SetClaimDate claimDate
                match SigHandler.Sign env.signPrim env.builderJSON sh permanodeBB with
                | .error e => ⟨.error ("Signing permanode : " ++ e), s0, []⟩
                | .ok (permanodeSigned, bb1, sreq1) =>
                  let permanodeRef := env.sha1FromString permanodeSigned
                  match env.receive s0 permanodeRef permanodeSigned with
                  | .error e =>
                    ⟨.error ("While uploading signed permanode " ++ permanodeRef ++
                      ", " ++ permanodeSigned ++ ": " ++ e), s0, [(bb1, sreq1)]⟩
                  | .ok (_, s1) =>
                    let contentClaimBB :=
                      ((NewSetAttributeClaim permanodeRef "camliContent" fileblob.ref).SetSigner
                        publicKeyBlobRef).SetClaimDate claimDate
                    match SigHandler.Sign env.signPrim env.builderJSON sh contentClaimBB with
                    | .error e =>
                      ⟨.error ("Signing camliContent claim: " ++ e), s1, [(bb1, sreq1)]⟩
                    | .ok (contentClaimSigned, bb2, sreq2) =>
                      let contentClaimRef := env.sha1FromString contentClaimSigned
                      match env.receive s1 contentClaimRef contentClaimSigned with
                      | .error e =>
                        ⟨.error ("While uploading signed camliContent claim " ++
                          contentClaimRef ++ ", " ++ contentClaimSigned ++ ": " ++ e),
                          s1, [(bb1, sreq1), (bb2, sreq2)]⟩
                      | .ok (_, s2) =>
                        ⟨.ok (), s2, [(bb1, sreq1), (bb2, sreq2)]⟩

/-- The error message with which part `p` aborts the remaining stream
when it causes a stream-framing error against store `s` (an unparsable
disposition header, a disposition other than "form-data", or a failing
receive); `none` when `p` causes no framing error. -/
def framingError (env : UploadEnv σ) (s : σ) (p : MimePart) : Option String :=
  match env.parseMediaType p.contentDisposition with
  | none => some "invalid Content-Disposition"
  | some (disp, params) =>
    if disp = "form-data" then
      match env.parseRef (partName params) with
      | none => none
      | some ref =>
        match env.receive s ref p.body with
        | .error e => some ("Error receiving blob " ++ ref ++ ": " ++ e ++ "\n")
        | .ok _ => none
    else some ("Expected Content-Disposition of \"form-data\"; got " ++ fmtQ disp)

/-- Following the spec's words, independently of `runVivify`: "each
success is reported via a repeated response header carrying that blob's
ref" — the refs of the blobs the vivification engine succeeds on, in
order. -/
def vivifySuccessRefs (f : σ → SizedRef → Except String σ) :
    σ → List SizedRef → List String
  | _, [] => []
  | s, b :: bs =>
    match f s b with
    | .ok s1 => b.ref :: vivifySuccessRefs f s1 bs
    | .error _ => vivifySuccessRefs f s bs

/-- Following the spec's words, independently of `runVivify`: "a
per-blob failure is appended to the aggregated error text" — the error
messages recorded for the blobs the vivification engine fails on, in
order. -/
def vivifyFailMsgs (f : σ → SizedRef → Except String σ) :
    σ → List SizedRef → List String
  | _, [] => []
  | s, b :: bs =>
    match f s b with
    | .ok s1 => vivifyFailMsgs f s1 bs
    | .error e =>
      ("Error vivifying blob " ++ b.ref ++ ": " ++ e ++ "\n") :: vivifyFailMsgs f s bs

/-- A concrete storage state for the witness instances: the (ref, body)
pairs received, in order. -/
abbrev TestStore := List (Ref × String)

/-- A concrete `UploadEnv` for the witness instances. -/
def testUploadEnv : UploadEnv TestStore where
  parseMediaType s :=
    if s = "raw" then none
    else if s = "attachment" then some ("attachment", [])
    else some ("form-data", [("name", s)])
  parseRef s := if s = "" ∨ s = "not-a-ref" then none else some s
  receive st r b :=
    if r = "sha1-fail" then .error "receive failed"
    else .ok (⟨r, goLen b⟩, st ++ [(r, b)])
  vivifyBlob st b :=
    if b.ref = "sha1-vivbad" then .error "vivify failed"
    else .ok (st ++ [(b.ref ++ "-vivified", "")])

/-- Witness part with a valid name. -/
def testPartA : MimePart := ⟨"sha1-aaa", "bodyA"⟩

/-- Witness part whose declared name does not parse as a blob ref. -/
def testPartB : MimePart := ⟨"not-a-ref", "bodyB"⟩

/-- Witness part with a valid name. -/
def testPartC : MimePart := ⟨"sha1-ccc", "bodyC"⟩

/-- Witness part whose receive succeeds but whose vivification fails. -/
def testPartD : MimePart := ⟨"sha1-vivbad", "bodyD"⟩

/-- Witness part whose disposition header does not parse. -/
def testPartRaw : MimePart := ⟨"raw", "bodyR"⟩

/-- A well-formed upload request over parts A, B, C without the vivify
header. -/
def testReq : UploadRequest :=
  ⟨"POST", "/bs/camli/upload", .ok ([testPartA, testPartB, testPartC], none), "0"⟩

/-- A well-formed upload request over parts A, D with the vivify header
set. -/
def testReqViv : UploadRequest :=
  ⟨"POST", "/bs/camli/upload", .ok ([testPartA, testPartD], none), "1"⟩

/-- A concrete file reader whose read byte count matches its declared
size. -/
def testFileReader : FileReader :=
  ⟨5, 5, none, "2020-01-02T03:04:05Z", "f.txt", "cafebabe"⟩

/-- A concrete sign handler. -/
def testSigHandler : SigHandler :=
  ⟨"", "sha1-pubkey", "camli/sha1-pubkey", "DEADBEEF"⟩

/-- A concrete `VivifyEnv` on which `vivify` succeeds. -/
def testVivifyEnv : VivifyEnv TestStore where
  isStreamingFetcher := true
  newFileReader := .ok testFileReader
  handlerLookup := .found "/" testSigHandler
  parseRFC3339 s := if s = "2020-01-02T03:04:05Z" then some 1577934245 else none
  builderJSON _ := .ok "builder-json"
  signPrim sr := .ok ("signed:" ++ sr.unsignedJSON)
  sha1FromString s := "sha1-of:" ++ s
  receive st r b := .ok (⟨r, goLen b⟩, st ++ [(r, b)])

/-- `testVivifyEnv` with a file reader that reads fewer bytes than the
declared size. -/
def testVivifyEnvShort : VivifyEnv TestStore :=
  { testVivifyEnv with newFileReader := .ok { testFileReader with copyN := 3 } }

/-- The `json` form value for the oversized sign-request witness: one
byte over the cap. -/
def testBigJSON : String := String.mk (List.replicate (kMaxJSONLength + 1) 'a')

/-- Whether a write is a `ReturnJSON` (HTTP 200) write. -/
def HttpWrite.isJson : HttpWrite → Bool
  | .json _ => true
  | _ => false

/-! ## Helper lemmas -/

theorem append_ne_empty_left (s t : String) (h : s ≠ "") : s ++ t ≠ "" := by
  intro hc
  apply h
  rw [String.ext_iff] at hc ⊢
  simp at hc
  simp [hc.1]

theorem foldl_addErrText_ne (l : List String) (acc : String) (h : acc ≠ "") :
    List.foldl addErrText acc l ≠ "" := by
  induction l generalizing acc with
  | nil => exact h
  | cons a t ih =>
    rw [List.foldl_cons]
    apply ih
    rw [addErrText, if_neg h]
    exact append_ne_empty_left _ _ (append_ne_empty_left _ _ h)

theorem foldl_addErrText_eq_go (l : List String) (acc : String) (h : acc ≠ "") :
    List.foldl addErrText acc l = String.intercalate.go acc "\n" l := by
  induction l generalizing acc with
  | nil => rfl
  | cons a t ih =>
    rw [List.foldl_cons, addErrText, if_neg h]
    show List.foldl addErrText (acc ++ "\n" ++ a) t
      = String.intercalate.go (acc ++ "\n" ++ a) "\n" t
    exact ih _ (append_ne_empty_left _ _ (append_ne_empty_left _ _ h))

/-- The `errText` accumulator agrees with the newline-join of the
recorded messages, as long as no recorded message is itself empty. -/
theorem errTextOf_eq_intercalate (l : List String) (h : ∀ s ∈ l, s ≠ "") :
    errTextOf l = String.intercalate "\n" l := by
  cases l with
  | nil => rfl
  | cons a t =>
    rw [errTextOf, List.foldl_cons]
    have ha : addErrText "" a = a := by rw [addErrText, if_pos rfl]
    rw [ha]
    show List.foldl addErrText a t = String.intercalate.go a "\n" t
    exact foldl_addErrText_eq_go t a (h a (by simp))

theorem errTextOf_ne_empty (l : List String) (h : ∀ s ∈ l, s ≠ "") (hl : l ≠ []) :
    errTextOf l ≠ "" := by
  cases l with
  | nil => exact absurd rfl hl
  | cons a t =>
    rw [errTextOf, List.foldl_cons]
    have ha : addErrText "" a = a := by rw [addErrText, if_pos rfl]
    rw [ha]
    exact foldl_addErrText_ne t a (h a (by simp))

theorem addErr_errors_ne {σ : Type} (st : LoopState σ) (msg : String)
    (h : ∀ s ∈ st.errors, s ≠ "") (hm : msg ≠ "") :
    ∀ s ∈ (st.addErr msg).errors, s ≠ "" := by
  intro s hs
  simp only [LoopState.addErr, List.mem_append, List.mem_singleton] at hs
  rcases hs with h1 | rfl
  · exact h s h1
  · exact hm

/-- Every error message the ingestion loop records is nonempty. -/
theorem processParts_errors_ne {σ : Type} (env : UploadEnv σ) (parts : List MimePart)
    (st : LoopState σ) (serr : Option String)
    (h : ∀ s ∈ st.errors, s ≠ "") :
    ∀ s ∈ (processParts env st parts serr).errors, s ≠ "" := by
  induction parts generalizing st with
  | nil =>
    cases serr with
    | none => simpa [processParts] using h
    | some e =>
      simp only [processParts]
      exact addErr_errors_ne st _ h (append_ne_empty_left _ _ (by decide))
  | cons p rest ih =>
    rcases hpm : env.parseMediaType p.contentDisposition with _ | ⟨disp, params⟩
    · simp only [processParts, hpm]
      exact addErr_errors_ne st _ h (by decide)
    · by_cases hd : disp = "form-data"
      · rcases hpr : env.parseRef (partName params) with _ | ref
        · simp only [processParts, hpm, if_pos hd, hpr]
          exact ih _ (addErr_errors_ne st _ h (append_ne_empty_left _ _ (by decide)))
        · rcases hrc : env.receive st.store ref p.body with e | ⟨got, s'⟩
          · simp only [processParts, hpm, if_pos hd, hpr, hrc]
            exact addErr_errors_ne st _ h
              (append_ne_empty_left _ _ (append_ne_empty_left _ _
                (append_ne_empty_left _ _ (append_ne_empty_left _ _ (by decide)))))
          · simp only [processParts, hpm, if_pos hd, hpr, hrc]
            exact ih _ h
      · simp only [processParts, hpm, if_neg hd]
        exact addErr_errors_ne st _ h (append_ne_empty_left _ _ (by decide))

/-- The vivify loop's response headers are exactly the refs of the
successfully vivified blobs, in order. -/
theorem runVivify_headers {σ : Type} (f : σ → SizedRef → Except String σ)
    (s : σ) (bs : List SizedRef) :
    (runVivify f s bs).2.2 = vivifySuccessRefs f s bs := by
  induction bs generalizing s with
  | nil => rfl
  | cons b t ih =>
    cases hf : f s b with
    | error e => simp only [runVivify, vivifySuccessRefs, hf]; exact ih s
    | ok s1 => simp only [runVivify, vivifySuccessRefs, hf, ih s1]

/-- The vivify loop's recorded messages are exactly the per-blob failure
messages, in order. -/
theorem runVivify_errors {σ : Type} (f : σ → SizedRef → Except String σ)
    (s : σ) (bs : List SizedRef) :
    (runVivify f s bs).2.1 = vivifyFailMsgs f s bs := by
  induction bs generalizing s with
  | nil => rfl
  | cons b t ih =>
    cases hf : f s b with
    | error e => simp only [runVivify, vivifyFailMsgs, hf, ih s]
    | ok s1 => simp only [runVivify, vivifyFailMsgs, hf]; exact ih s1

/-- Every received blob is passed to the vivification engine: each one
contributes exactly one response header or one recorded message. -/
theorem runVivify_count {σ : Type} (f : σ → SizedRef → Except String σ)
    (s : σ) (bs : List SizedRef) :
    (runVivify f s bs).2.2.length + (runVivify f s bs).2.1.length = bs.length := by
  induction bs generalizing s with
  | nil => rfl
  | cons b t ih =>
    cases hf : f s b with
    | error e =>
      simp only [runVivify, hf, List.length_cons]
      have := ih s
      omega
    | ok s1 =>
      simp only [runVivify, hf, List.length_cons]
      have := ih s1
      omega

/-- Every message the vivify loop records is nonempty. -/
theorem runVivify_errors_ne {σ : Type} (f : σ → SizedRef → Except String σ)
    (s : σ) (bs : List SizedRef) :
    ∀ m ∈ (runVivify f s bs).2.1, m ≠ "" := by
  induction bs generalizing s with
  | nil => simp [runVivify]
  | cons b t ih =>
    cases hf : f s b with
    | error e =>
      simp only [runVivify, hf, List.mem_cons]
      intro m hm
      rcases hm with rfl | hm
      · exact append_ne_empty_left _ _ (append_ne_empty_left _ _
          (append_ne_empty_left _ _ (append_ne_empty_left _ _ (by decide))))
      · exact ih s m hm
    | ok s1 =>
      simp only [runVivify, hf]
      exact ih s1

theorem utf8Len_replicate_a (n : Nat) : String.utf8Len (List.replicate n 'a') = n := by
  induction n with
  | zero => rfl
  | succ k ih =>
    rw [List.replicate_succ, String.utf8Len_cons, ih]
    have hca : Char.utf8Size 'a' = 1 := by decide
    rw [hca]

theorem goLen_testBigJSON : goLen testBigJSON = kMaxJSONLength + 1 := by
  rw [testBigJSON, goLen, String.utf8ByteSize_mk, utf8Len_replicate_a]

/-! ## Claims -/

/-- C1: In the upload ingestion loop, a multipart part whose declared
name does not parse as a valid BlobRef is skipped alone, with an error
recorded, and iteration continues with the next part; valid parts
before and after it are still received and appear in the result
sequence (here: parts A, C around the bad part B yield exactly
`[gA, gC]`, with B's error the only one recorded, and both A's and C's
receives applied to the store). -/
theorem claim1_invalid_name_part_skipped {σ : Type}
    (env : UploadEnv σ) (s0 s1 s2 : σ)
    (A B C : MimePart) (pA pB pC : List (String × String))
    (rA rC : Ref) (gA gC : SizedRef)
    (st : LoopState σ) (rest : List MimePart) (serr : Option String)
    (hA1 : env.parseMediaType A.contentDisposition = some ("form-data", pA))
    (hA2 : env.parseRef (partName pA) = some rA)
    (hA3 : env.receive s0 rA A.body = .ok (gA, s1))
    (hB1 : env.parseMediaType B.contentDisposition = some ("form-data", pB))
    (hB2 : env.parseRef (partName pB) = none)
    (hC1 : env.parseMediaType C.contentDisposition = some ("form-data", pC))
    (hC2 : env.parseRef (partName pC) = some rC)
    (hC3 : env.receive s1 rC C.body = .ok (gC, s2)) :
    processParts env ⟨[], [], s0⟩ [A, B, C] none =
      ⟨[gA, gC], ["Ignoring form key " ++ fmtQ (partName pB)], s2⟩
    ∧ processParts env st (B :: rest) serr =
        processParts env (st.addErr ("Ignoring form key " ++ fmtQ (partName pB))) rest serr := by
  constructor
  · simp [processParts, hA1, hA2, hA3, hB1, hB2, hC1, hC2, hC3, LoopState.addErr]
  · simp [processParts, hB1, hB2]

/-- C1 witness at concrete inputs. -/
theorem claim1_witness :
    processParts testUploadEnv ⟨[], [], ([] : TestStore)⟩ [testPartA, testPartB, testPartC] none =
      ⟨[⟨"sha1-aaa", 5⟩, ⟨"sha1-ccc", 5⟩],
       ["Ignoring form key " ++ fmtQ (partName [("name", "not-a-ref")])],
       [("sha1-aaa", "bodyA"), ("sha1-ccc", "bodyC")]⟩ :=
  (claim1_invalid_name_part_skipped testUploadEnv [] [("sha1-aaa", "bodyA")]
    [("sha1-aaa", "bodyA"), ("sha1-ccc", "bodyC")]
    testPartA testPartB testPartC
    [("name", "sha1-aaa")] [("name", "not-a-ref")] [("name", "sha1-ccc")]
    "sha1-aaa" "sha1-ccc" ⟨"sha1-aaa", 5⟩ ⟨"sha1-ccc", 5⟩
    ⟨[], [], []⟩ [] none
    (by rfl) (by rfl) (by rfl) (by rfl) (by rfl) (by rfl) (by rfl) (by rfl)).1

/-- C2: A part whose disposition header fails to parse or is not
"form-data", or whose receive fails, records an error and abandons the
entire remaining stream: the loop result is `st.addErr msg`
independently of the remaining parts and of the terminal stream
outcome, so no subsequent part is read, and the previously received
blobs (and store) are preserved. -/
theorem claim2_framing_error_abandons_stream {σ : Type}
    (env : UploadEnv σ) (st : LoopState σ) (p : MimePart)
    (rest : List MimePart) (serr : Option String) (msg : String)
    (h : framingError env st.store p = some msg) :
    processParts env st (p :: rest) serr = st.addErr msg
    ∧ (processParts env st (p :: rest) serr).received = st.received
    ∧ (processParts env st (p :: rest) serr).store = st.store := by
  have heq : processParts env st (p :: rest) serr = st.addErr msg := by
    rcases hpm : env.parseMediaType p.contentDisposition with _ | ⟨disp, params⟩
    · simp only [framingError, hpm, Option.some.injEq] at h
      subst h
      simp [processParts, hpm]
    · by_cases hd : disp = "form-data"
      · rcases hpr : env.parseRef (partName params) with _ | ref
        · simp [framingError, hpm, hd, hpr] at h
        · rcases hrc : env.receive st.store ref p.body with e | ok
          · simp only [framingError, hpm, hd, hpr, hrc, if_true, eq_self_iff_true,
              Option.some.injEq] at h
            subst h
            simp [processParts, hpm, hd, hpr, hrc]
          · simp [framingError, hpm, hd, hpr, hrc] at h
      · simp only [framingError, hpm, hd, if_false, Option.some.injEq] at h
        subst h
        simp [processParts, hpm, hd]
  refine ⟨heq, ?_, ?_⟩ <;> rw [heq] <;> rfl

/-- C2 witness at concrete inputs: a part with an unparsable disposition
header, after one successfully received blob. -/
theorem claim2_witness :
    processParts testUploadEnv ⟨[⟨"sha1-aaa", 5⟩], [], [("sha1-aaa", "bodyA")]⟩
        [testPartRaw, testPartC] none =
      LoopState.addErr ⟨[⟨"sha1-aaa", 5⟩], [], [("sha1-aaa", "bodyA")]⟩
        "invalid Content-Disposition"
    ∧ (processParts testUploadEnv ⟨[⟨"sha1-aaa", 5⟩], [], [("sha1-aaa", "bodyA")]⟩
        [testPartRaw, testPartC] none).received = [⟨"sha1-aaa", 5⟩]
    ∧ (processParts testUploadEnv ⟨[⟨"sha1-aaa", 5⟩], [], [("sha1-aaa", "bodyA")]⟩
        [testPartRaw, testPartC] none).store = [("sha1-aaa", "bodyA")] :=
  claim2_framing_error_abandons_stream testUploadEnv
    ⟨[⟨"sha1-aaa", 5⟩], [], [("sha1-aaa", "bodyA")]⟩ testPartRaw [testPartC] none
    "invalid Content-Disposition" (by rfl)

theorem errText_field (l : List String) (h : ∀ s ∈ l, s ≠ "") :
    (if errTextOf l = "" then none else some (errTextOf l)) =
    (if l = [] then none else some (String.intercalate "\n" l)) := by
  by_cases hl : l = []
  · subst hl; simp [errTextOf]
  · rw [if_neg (errTextOf_ne_empty l h hl), if_neg hl, errTextOf_eq_intercalate l h]

/-- C3: A request that parses as multipart gets an HTTP success
response whatever mid-stream errors occur — a client error
(`BadRequestError`) is never among the writes, for any configuration
state — and under a good configuration the one write is the JSON
response whose `errorText` field is absent when no error was recorded
and otherwise is the newline-join of all recorded error messages
(ingestion loop errors then vivify errors) in occurrence order. -/
theorem claim3_success_response_error_text {σ : Type}
    (env : UploadEnv σ) (req : UploadRequest) (s0 : σ)
    (parts : List MimePart) (serr : Option String) (u : String)
    (st : LoopState σ) (v : σ × List String × List String)
    (h1 : req.method = "POST")
    (h2 : strContains req.urlPath "/camli/upload" = true)
    (h3 : req.multipart = .ok (parts, serr))
    (hst : st = processParts env ⟨[], [], s0⟩ parts serr)
    (hv : v = if req.vivifyHeader = "1"
      then runVivify env.vivifyBlob st.store st.received
      else (st.store, [], [])) :
    (∀ cfg m, HttpWrite.badRequest m ∉ (handleMultiPartUpload env cfg req s0).writes)
    ∧ (handleMultiPartUpload env (.good u) req s0).writes =
        [HttpWrite.json
          ⟨⟨MaxBlobSize, 86400, some (u ++ "/camli/upload")⟩,
           st.received.map (fun g => (g.ref, g.size)),
           if st.errors ++ v.2.1 = [] then none
           else some (String.intercalate "\n" (st.errors ++ v.2.1))⟩] := by
  subst hst
  subst hv
  constructor
  · intro cfg m hm
    cases cfg <;>
      simp [handleMultiPartUpload, h1, h2, h3, commonUploadResponse] at hm
  · have hne : ∀ s ∈ (processParts env ⟨[], [], s0⟩ parts serr).errors ++
        (if req.vivifyHeader = "1"
         then runVivify env.vivifyBlob (processParts env ⟨[], [], s0⟩ parts serr).store
                (processParts env ⟨[], [], s0⟩ parts serr).received
         else ((processParts env ⟨[], [], s0⟩ parts serr).store, [], [])).2.1, s ≠ "" := by
      intro s hs
      rcases List.mem_append.1 hs with hs | hs
      · exact processParts_errors_ne env parts ⟨[], [], s0⟩ serr (by simp) s hs
      · by_cases hvh : req.vivifyHeader = "1"
        · rw [if_pos hvh] at hs
          exact runVivify_errors_ne _ _ _ s hs
        · rw [if_neg hvh] at hs
          simp at hs
    have key := errText_field _ hne
    simp [handleMultiPartUpload, h1, h2, h3, commonUploadResponse, key]

/-- C3 witness at concrete inputs. -/
theorem claim3_witness :
    (handleMultiPartUpload testUploadEnv (.good "http://x") testReq ([] : TestStore)).writes =
      [HttpWrite.json
        ⟨⟨MaxBlobSize, 86400, some ("http://x" ++ "/camli/upload")⟩,
         [(("sha1-aaa" : String), 5), (("sha1-ccc" : String), 5)],
         some "Ignoring form key \"not-a-ref\""⟩] :=
  (claim3_success_response_error_text testUploadEnv testReq [] [testPartA, testPartB, testPartC]
    none "http://x"
    ⟨[⟨"sha1-aaa", 5⟩, ⟨"sha1-ccc", 5⟩], ["Ignoring form key \"not-a-ref\""],
      [("sha1-aaa", "bodyA"), ("sha1-ccc", "bodyC")]⟩
    ([("sha1-aaa", "bodyA"), ("sha1-ccc", "bodyC")], [], [])
    (by rfl) (by rfl) (by rfl) (by rfl) (by rfl)).2

/-- C10: When `commonUploadResponse` returns an error the handler
writes an error response but does not return: when it also returned a
nil map (nil configer, or nil `Config()`) the subsequent
`ret["received"]` assignment faults on the nil map after the single 500
write; in the remaining error case (uploadUrl construction failure)
there is no fault and two responses are written to the same connection,
the 500 followed by the JSON response. -/
theorem claim10_error_paths {σ : Type}
    (env : UploadEnv σ) (req : UploadRequest) (s0 : σ)
    (parts : List MimePart) (serr : Option String) (e : String)
    (h1 : req.method = "POST")
    (h2 : strContains req.urlPath "/camli/upload" = true)
    (h3 : req.multipart = .ok (parts, serr)) :
    ((handleMultiPartUpload env .nilConfiger req s0).fault = true
     ∧ (handleMultiPartUpload env .nilConfiger req s0).writes =
         [.serverError "Cannot build uploadUrl: configer is nil"])
    ∧ ((handleMultiPartUpload env .nilConfig req s0).fault = true
     ∧ (handleMultiPartUpload env .nilConfig req s0).writes =
         [.serverError "Cannot build uploadUrl: configer.Config is nil"])
    ∧ ((handleMultiPartUpload env (.badBaseURL e) req s0).fault = false
     ∧ (handleMultiPartUpload env (.badBaseURL e) req s0).writes.map HttpWrite.isJson =
         [false, true]
     ∧ (handleMultiPartUpload env (.badBaseURL e) req s0).writes.head? =
         some (.serverError ("Cannot build uploadUrl: " ++ e))) := by
  refine ⟨⟨?_, ?_⟩, ⟨?_, ?_⟩, ?_, ?_, ?_⟩ <;>
    simp [handleMultiPartUpload, h1, h2, h3, commonUploadResponse, HttpWrite.isJson]

/-- C10 witness at concrete inputs. -/
theorem claim10_witness :
    (handleMultiPartUpload testUploadEnv .nilConfiger testReq ([] : TestStore)).fault = true
    ∧ (handleMultiPartUpload testUploadEnv .nilConfiger testReq ([] : TestStore)).writes =
        [.serverError "Cannot build uploadUrl: configer is nil"] :=
  (claim10_error_paths testUploadEnv testReq [] [testPartA, testPartB, testPartC] none "boom"
    (by rfl) (by rfl) (by rfl)).1

/-- C4: With the `X-Camlistore-Vivify` header present, every
successfully ingested blob is passed to the vivification engine (each
contributes exactly one header or one error message, see the count
conjunct), each success adds one `X-Camlistore-Vivified` header with
that blob's ref, and each failure's message is appended to the
aggregated error text of the JSON response. -/
theorem claim4_vivify_per_blob {σ : Type}
    (env : UploadEnv σ) (req : UploadRequest) (s0 : σ)
    (parts : List MimePart) (serr : Option String) (u : String)
    (st : LoopState σ)
    (h1 : req.method = "POST")
    (h2 : strContains req.urlPath "/camli/upload" = true)
    (h3 : req.multipart = .ok (parts, serr))
    (h4 : req.vivifyHeader = "1")
    (hst : st = processParts env ⟨[], [], s0⟩ parts serr) :
    (handleMultiPartUpload env (.good u) req s0).vivifiedHeaders =
      vivifySuccessRefs env.vivifyBlob st.store st.received
    ∧ (handleMultiPartUpload env (.good u) req s0).writes =
        [HttpWrite.json
          ⟨⟨MaxBlobSize, 86400, some (u ++ "/camli/upload")⟩,
           st.received.map (fun g => (g.ref, g.size)),
           if st.errors ++ vivifyFailMsgs env.vivifyBlob st.store st.received = [] then none
           else some (String.intercalate "\n"
             (st.errors ++ vivifyFailMsgs env.vivifyBlob st.store st.received))⟩]
    ∧ (vivifySuccessRefs env.vivifyBlob st.store st.received).length
        + (vivifyFailMsgs env.vivifyBlob st.store st.received).length
        = st.received.length := by
  subst hst
  refine ⟨?_, ?_, ?_⟩
  · simp [handleMultiPartUpload, h1, h2, h3, h4, commonUploadResponse, runVivify_headers]
  · have hne : ∀ s ∈ (processParts env ⟨[], [], s0⟩ parts serr).errors ++
        vivifyFailMsgs env.vivifyBlob (processParts env ⟨[], [], s0⟩ parts serr).store
          (processParts env ⟨[], [], s0⟩ parts serr).received, s ≠ "" := by
      intro s hs
      rcases List.mem_append.1 hs with hs | hs
      · exact processParts_errors_ne env parts ⟨[], [], s0⟩ serr (by simp) s hs
      · rw [← runVivify_errors] at hs
        exact runVivify_errors_ne _ _ _ s hs
    have key := errText_field _ hne
    simp [handleMultiPartUpload, h1, h2, h3, h4, commonUploadResponse, key,
      runVivify_errors]
  · rw [← runVivify_headers, ← runVivify_errors]
    exact runVivify_count _ _ _

/-- C4 witness at concrete inputs: one blob vivifies successfully, one
fails. -/
theorem claim4_witness :
    (handleMultiPartUpload testUploadEnv (.good "http://x") testReqViv ([] : TestStore)).vivifiedHeaders
      = ["sha1-aaa"]
    ∧ (handleMultiPartUpload testUploadEnv (.good "http://x") testReqViv ([] : TestStore)).writes =
        [HttpWrite.json
          ⟨⟨MaxBlobSize, 86400, some ("http://x" ++ "/camli/upload")⟩,
           [(("sha1-aaa" : String), 5), (("sha1-vivbad" : String), 5)],
           some "Error vivifying blob sha1-vivbad: vivify failed\n"⟩]
    ∧ (2 : Nat) = 2 := by
  have h := claim4_vivify_per_blob testUploadEnv testReqViv [] [testPartA, testPartD] none
    "http://x"
    ⟨[⟨"sha1-aaa", 5⟩, ⟨"sha1-vivbad", 5⟩], [],
      [("sha1-aaa", "bodyA"), ("sha1-vivbad", "bodyD")]⟩
    (by rfl) (by rfl) (by rfl) (by rfl) (by rfl)
  exact ⟨h.1, h.2.1, rfl⟩

/-- C5: A vivification whose reconstructed byte count differs from the
size declared by the file's own description fails, with the store left
unchanged and no object signed or published. -/
theorem claim5_size_mismatch_aborts {σ : Type}
    (env : VivifyEnv σ) (fb : SizedRef) (s0 : σ) (fr : FileReader)
    (h1 : env.isStreamingFetcher = true)
    (h2 : env.newFileReader = .ok fr)
    (h3 : fr.copyErr = none)
    (h4 : fr.copyN ≠ fr.size) :
    vivify env fb s0 =
      ⟨.error ("Could not read all file of blobref " ++ fb.ref ++ ". Wanted " ++
        toString fr.size ++ ", got " ++ toString fr.copyN), s0, []⟩ := by
  simp [vivify, h1, h2, h3, h4]

/-- C5 witness at concrete inputs: 3 bytes read against a declared size
of 5. -/
theorem claim5_witness :
    vivify testVivifyEnvShort ⟨"sha1-file", 5⟩ ([] : TestStore) =
      ⟨.error ("Could not read all file of blobref sha1-file. Wanted " ++
        toString (5 : Int) ++ ", got " ++ toString (3 : Int)), [], []⟩ :=
  claim5_size_mismatch_aborts testVivifyEnvShort ⟨"sha1-file", 5⟩ []
    { testFileReader with copyN := 3 }
    (by rfl) (by rfl) (by rfl) (by decide)

theorem Sign_ok_shape (signPrim : SignRequest → Except String String)
    (builderJSON : Builder → Except String String)
    (h : SigHandler) (bb : Builder) (signed : String) (bb' : Builder) (sreq : SignRequest)
    (hs : SigHandler.Sign signPrim builderJSON h bb = .ok (signed, bb', sreq)) :
    bb' = bb.SetSigner h.pubKeyBlobRef ∧ sreq.signatureTime = bb.claimDate := by
  rw [SigHandler.Sign] at hs
  rcases hbj : builderJSON (bb.SetSigner h.pubKeyBlobRef) with e | uns <;>
    rw [hbj] at hs
  · simp at hs
  · dsimp only at hs
    rcases hsp : signPrim ⟨uns, true, h.secretRing, (bb.SetSigner h.pubKeyBlobRef).claimDate⟩
      with e | sgd <;> rw [hsp] at hs
    · simp at hs
    · simp only [Except.ok.injEq, Prod.mk.injEq] at hs
      obtain ⟨-, hb, hq⟩ := hs
      subst hb
      subst hq
      exact ⟨rfl, rfl⟩

/-- C6: Within every successful vivification, the one claim date parsed
from the file's declared modification timestamp is used identically in
all three places: the permanode's signature time, the content claim's
declared claim date, and the content claim's signature time (the
permanode's declared claim date agrees as well). -/
theorem claim6_one_claim_date {σ : Type}
    (env : VivifyEnv σ) (fb : SizedRef) (s0 : σ) (fr : FileReader)
    (hfr : env.newFileReader = .ok fr)
    (hok : (vivify env fb s0).result = .ok ()) :
    ∃ d bb1 sr1 bb2 sr2,
      env.parseRFC3339 fr.unixMtime = some d
      ∧ (vivify env fb s0).signCalls = [(bb1, sr1), (bb2, sr2)]
      ∧ bb1.claimDate = some d
      ∧ sr1.signatureTime = some d
      ∧ bb2.claimDate = some d
      ∧ sr2.signatureTime = some d := by
  cases hb : env.isStreamingFetcher with
  | false => simp [vivify, hb] at hok
  | true =>
    rcases hce : fr.copyErr with _ | e
    · by_cases hsz : fr.copyN = fr.size
      · rcases hl : env.handlerLookup with _ | _ | _ | _ | ⟨root, sh⟩
        · simp [vivify, hb, hfr, hce, hsz, hl] at hok
        · simp [vivify, hb, hfr, hce, hsz, hl] at hok
        · simp [vivify, hb, hfr, hce, hsz, hl] at hok
        · simp [vivify, hb, hfr, hce, hsz, hl] at hok
        · rcases hdm : (sh.DiscoveryMap root).publicKeyBlobRef with _ | pk
          · simp [vivify, hb, hfr, hce, hsz, hl, hdm] at hok
          · rcases hpd : env.parseRFC3339 fr.unixMtime with _ | d
            · simp [vivify, hb, hfr, hce, hsz, hl, hdm, hpd] at hok
            · rcases hsg1 : SigHandler.Sign env.signPrim env.builderJSON sh
                  (((NewHashPlannedPermanode fr.contentHash).SetSigner pk).SetClaimDate d)
                with e1 | ⟨signed1, bb1, sr1⟩
              · simp [vivify, hb, hfr, hce, hsz, hl, hdm, hpd, hsg1] at hok
              · rcases hrc1 : env.receive s0 (env.sha1FromString signed1) signed1
                  with e1 | ⟨g1, s1⟩
                · simp [vivify, hb, hfr, hce, hsz, hl, hdm, hpd, hsg1, hrc1] at hok
                · rcases hsg2 : SigHandler.Sign env.signPrim env.builderJSON sh
                      (((NewSetAttributeClaim (env.sha1FromString signed1) "camliContent"
                        fb.ref).SetSigner pk).SetClaimDate d)
                    with e2 | ⟨signed2, bb2, sr2⟩
                  · simp [vivify, hb, hfr, hce, hsz, hl, hdm, hpd, hsg1, hrc1, hsg2] at hok
                  · rcases hrc2 : env.receive s1 (env.sha1FromString signed2) signed2
                      with e2 | ⟨g2, s2⟩
                    · simp [vivify, hb, hfr, hce, hsz, hl, hdm, hpd, hsg1, hrc1,
                        hsg2, hrc2] at hok
                    · obtain ⟨hbb1, hsr1⟩ := Sign_ok_shape _ _ _ _ _ _ _ hsg1
                      obtain ⟨hbb2, hsr2⟩ := Sign_ok_shape _ _ _ _ _ _ _ hsg2
                      refine ⟨d, bb1, sr1, bb2, sr2, rfl, ?_, ?_, ?_, ?_, ?_⟩
                      · simp [vivify, hb, hfr, hce, hsz, hl, hdm, hpd, hsg1, hrc1,
                          hsg2, hrc2]
                      · simp [hbb1, Builder.SetSigner, Builder.SetClaimDate]
                      · simp [hsr1, Builder.SetSigner, Builder.SetClaimDate]
                      · simp [hbb2, Builder.SetSigner, Builder.SetClaimDate]
                      · simp [hsr2, Builder.SetSigner, Builder.SetClaimDate]
      · simp [vivify, hb, hfr, hce, hsz] at hok
    · simp [vivify, hb, hfr, hce] at hok

/-- C6 witness at concrete inputs: a successful vivification. -/
theorem claim6_witness :
    ∃ d bb1 sr1 bb2 sr2,
      testVivifyEnv.parseRFC3339 testFileReader.unixMtime = some d
      ∧ (vivify testVivifyEnv ⟨"sha1-file", 5⟩ ([] : TestStore)).signCalls =
          [(bb1, sr1), (bb2, sr2)]
      ∧ bb1.claimDate = some d
      ∧ sr1.signatureTime = some d
      ∧ bb2.claimDate = some d
      ∧ sr2.signatureTime = some d :=
  claim6_one_claim_date testVivifyEnv ⟨"sha1-file", 5⟩ [] testFileReader (by rfl) (by rfl)

theorem uploadPublicKey_present (r : Ref) (key : String) (sto : Store)
    (h : (List.lookup r sto.blobs).isSome = true) :
    uploadPublicKey r key sto = (sto, 0) := by
  rcases hl : List.lookup r sto.blobs with _ | c
  · rw [hl] at h; simp at h
  · simp [uploadPublicKey, Store.statBlob, hl]

/-- C7: The public-key publication step is idempotent: any number of
successive invocations against the same destination performs at most
one write in total, and when the key blob already exists at the
destination every invocation is a pure existence check performing no
write. -/
theorem claim7_upload_public_key_idempotent (r : Ref) (key : String) (sto : Store) (n : Nat) :
    (uploadPublicKeyIter r key n sto).2 ≤ 1
    ∧ ((List.lookup r sto.blobs).isSome = true →
        (uploadPublicKeyIter r key n sto).2 = 0) := by
  induction n generalizing sto with
  | zero => exact ⟨by simp [uploadPublicKeyIter], fun _ => rfl⟩
  | succ k ih =>
    constructor
    · rcases hl : List.lookup r sto.blobs with _ | c
      · have h1 : uploadPublicKey r key sto = ((⟨(r, key) :: sto.blobs⟩ : Store), 1) := by
          simp [uploadPublicKey, Store.statBlob, hl, Store.receiveBlob]
        have hrest := (ih ⟨(r, key) :: sto.blobs⟩).2 (by simp [List.lookup])
        simp [uploadPublicKeyIter, h1, hrest]
      · have h1 := uploadPublicKey_present r key sto (by simp [hl])
        have hrest := (ih sto).2 (by simp [hl])
        simp [uploadPublicKeyIter, h1, hrest]
    · intro h
      have h1 := uploadPublicKey_present r key sto h
      have hrest := (ih sto).2 h
      simp [uploadPublicKeyIter, h1, hrest]

/-- C7 witness at concrete inputs: three invocations against a
destination that already holds the key perform zero writes. -/
theorem claim7_witness :
    (uploadPublicKeyIter "sha1-pubkey" "KEY" 3 ⟨[("sha1-pubkey", "KEY")]⟩).2 ≤ 1
    ∧ (uploadPublicKeyIter "sha1-pubkey" "KEY" 3 ⟨[("sha1-pubkey", "KEY")]⟩).2 = 0 :=
  ⟨(claim7_upload_public_key_idempotent "sha1-pubkey" "KEY" ⟨[("sha1-pubkey", "KEY")]⟩ 3).1,
   (claim7_upload_public_key_idempotent "sha1-pubkey" "KEY" ⟨[("sha1-pubkey", "KEY")]⟩ 3).2
     (by rfl)⟩

/-- C8 counterexample: a POST to the verify endpoint whose `sjson` form
value is empty (i.e. missing, since Go's `FormValue` yields `""` for a
missing field) is answered with an HTTP 400 client error, not with an
HTTP 200 JSON body — refuting the claim as stated for arbitrary
POSTs. -/
theorem claim8_counterexample :
    handleVerify (fun _ => VerifyOutcome.invalid "bad signature") "" =
      HttpResult.clientError 400 "missing \"sjson\" parameter" := rfl

/-- C8 (amended): for every POST to the verify endpoint that carries a
nonempty `sjson` form value, the response is HTTP 200 with a JSON body
of the form `{signatureValid: 0 or 1, signerKeyId?, verifiedData?,
errorMessage?}`; an invalid signature never produces an HTTP-level
error, only the structured negative result. -/
theorem claim8_verify_always_200 (verify : String → VerifyOutcome) (sjson : String)
    (h : sjson ≠ "") :
    (∃ body, handleVerify verify sjson = .okJSON body
      ∧ (body.signatureValid = 0 ∨ body.signatureValid = 1))
    ∧ (∀ e, verify sjson = .invalid e →
        handleVerify verify sjson = .okJSON ⟨0, none, none, some e⟩)
    ∧ (∀ kid payload, verify sjson = .valid kid payload →
        handleVerify verify sjson = .okJSON ⟨1, some kid, some payload, none⟩) := by
  refine ⟨?_, ?_, ?_⟩
  · rcases hv : verify sjson with ⟨kid, payload⟩ | e
    · exact ⟨⟨1, some kid, some payload, none⟩, by simp [handleVerify, h, hv], Or.inr rfl⟩
    · exact ⟨⟨0, none, none, some e⟩, by simp [handleVerify, h, hv], Or.inl rfl⟩
  · intro e hv
    simp [handleVerify, h, hv]
  · intro kid payload hv
    simp [handleVerify, h, hv]

/-- C8 witness at concrete inputs. -/
theorem claim8_witness :
    (∃ body, handleVerify (fun _ => VerifyOutcome.invalid "bad signature") "some-sjson" =
        .okJSON body
      ∧ (body.signatureValid = 0 ∨ body.signatureValid = 1))
    ∧ (∀ e, (fun _ => VerifyOutcome.invalid "bad signature") "some-sjson" = .invalid e →
        handleVerify (fun _ => VerifyOutcome.invalid "bad signature") "some-sjson" =
          .okJSON ⟨0, none, none, some e⟩)
    ∧ (∀ kid payload,
        (fun _ => VerifyOutcome.invalid "bad signature") "some-sjson" = .valid kid payload →
        handleVerify (fun _ => VerifyOutcome.invalid "bad signature") "some-sjson" =
          .okJSON ⟨1, some kid, some payload, none⟩) :=
  claim8_verify_always_200 (fun _ => VerifyOutcome.invalid "bad signature") "some-sjson"
    (by decide)

/-- C9: A sign request whose `json` form value exceeds the fixed size
cap `kMaxJSONLength` is rejected with a client error, and the sign
primitive is never invoked — no canonicalization, parsing, or
cryptographic work is attempted. -/
theorem claim9_oversized_json_rejected (h : SigHandler)
    (signPrim : SignRequest → Except String String) (jsonStr : String)
    (hlen : kMaxJSONLength < goLen jsonStr) :
    handleSign h signPrim jsonStr =
      (.clientError 400 "parameter \"json\" too large", false) := by
  have hne : jsonStr ≠ "" := by
    intro hc
    rw [hc] at hlen
    have h0 : goLen "" = 0 := rfl
    rw [h0] at hlen
    exact absurd hlen (by decide)
  rw [handleSign, if_neg hne, if_pos hlen]

/-- C9 witness at a concrete input: a payload one byte over the cap. -/
theorem claim9_witness :
    handleSign testSigHandler (fun sr => .ok ("signed:" ++ sr.unsignedJSON)) testBigJSON =
      (.clientError 400 "parameter \"json\" too large", false) :=
  claim9_oversized_json_rejected testSigHandler _ testBigJSON
    (by rw [goLen_testBigJSON]; omega)

end Camli
